import Mathlib

/-!
Verification development for the NC General Statutes downloader
(`download-nc-statutes.py`): a shallow embedding of the statute-HTML
parsing core (element classifier, title extractor, parser state machine,
chapter-parser driving loop) together with theorems about it.

Strings are modelled through their character lists.  The three Python
regular expressions used by the source are embedded as executable
matchers with the same greedy/backtracking semantics, specialised to the
concrete patterns:

  ARTICLE_PATTERN = r"Article\s+(\d+[A-Z]?)"
  SECTION_PATTERN = r"§§?\s*([\w\.-]+(?:\s*through\s*[\w\.-]+)?)[:\.]"
  title heading   = r"^<keyword>\s+\d+[A-Z]?\.\s*"  (re.IGNORECASE)

Character classes are the ASCII readings of `\s`, `\d`, `\w`, `[A-Z]`;
Python's case-insensitive flag is modelled by `Char.toLower` comparison.
-/

namespace NCStatutes

/-- Python `\s` (ASCII whitespace). -/
def isPySpace (c : Char) : Bool :=
  c == ' ' || c == '\t' || c == '\n' || c == '\r' || c == '\x0b' || c == '\x0c'

/-- Python `\w` (ASCII reading): letters, digits, underscore. -/
def isWordC (c : Char) : Bool := c.isAlphanum || c == '_'

/-- The character class `[\w\.-]` of SECTION_PATTERN. -/
def isSecIdC (c : Char) : Bool := isWordC c || c == '.' || c == '-'

/-- Case-insensitive character comparison (models re.IGNORECASE). -/
def ciEqChar (a b : Char) : Bool := a.toLower == b.toLower

/-- Does `l` start with the pattern `p` (exact characters)? -/
def startsWithL : List Char → List Char → Bool
  | [], _ => true
  | _ :: _, [] => false
  | p :: ps, c :: cs => p == c && startsWithL ps cs

/-- Does `l` end with the pattern `p` (exact characters)? -/
def endsWithL (p l : List Char) : Bool := startsWithL p.reverse l.reverse

/-- Does `l` start with the pattern `p`, case-insensitively? -/
def ciStartsWithL : List Char → List Char → Bool
  | [], _ => true
  | _ :: _, [] => false
  | p :: ps, c :: cs => ciEqChar p c && ciStartsWithL ps cs

/-! ### ARTICLE_PATTERN: `re.search(r"Article\s+(\d+[A-Z]?)", text)` -/

/-- Try to match `Article\s+(\d+[A-Z]?)` anchored at the head of `l`;
returns the captured group. -/
def articleNumAt (l : List Char) : Option String :=
  if startsWithL "Article".data l then
    let r := l.drop 7
    if (r.takeWhile isPySpace).isEmpty then none
    else
      let r2 := r.dropWhile isPySpace
      let ds := r2.takeWhile Char.isDigit
      if ds.isEmpty then none
      else
        match r2.drop ds.length with
        | c :: _ => if c.isUpper then some (String.mk (ds ++ [c])) else some (String.mk ds)
        | [] => some (String.mk ds)
  else none

/-- Leftmost search for ARTICLE_PATTERN: scan every start position. -/
def articleSearchL : List Char → Option String
  | [] => none
  | c :: cs =>
    match articleNumAt (c :: cs) with
    | some g => some g
    | none => articleSearchL cs

/-- `re.search(ARTICLE_PATTERN, text)`, returning group 1. -/
def articleSearch (text : String) : Option String := articleSearchL text.data

/-! ### SECTION_PATTERN: `§§?\s*([\w\.-]+(?:\s*through\s*[\w\.-]+)?)[:\.]` -/

/-- Is the head of `l` one of the terminators `[:\.]`? -/
def secTermHead : List Char → Bool
  | c :: _ => c == ':' || c == '.'
  | [] => false

/-- Backtracking for the inner `[\w\.-]+` of the `through` branch: given
the reversed maximal run and the remainder, find the longest nonempty
prefix of the run that is directly followed by a terminator.  Returns
the reversed prefix kept. -/
def secShrinkAux : List Char → List Char → Option (List Char)
  | [], _ => none
  | c :: rb, rest =>
    if secTermHead rest then some ((c :: rb).reverse)
    else secShrinkAux rb (c :: rest)

/-- Try the optional `\s*through\s*[\w\.-]+` part (followed by a
terminator) at `r`; returns the characters it contributes to group 1. -/
def secThroughAt (r : List Char) : Option (List Char) :=
  let w1 := r.takeWhile isPySpace
  let r1 := r.dropWhile isPySpace
  if startsWithL "through".data r1 then
    let r2 := r1.drop 7
    let w2 := r2.takeWhile isPySpace
    let r3 := r2.dropWhile isPySpace
    let b := r3.takeWhile isSecIdC
    let rest := r3.dropWhile isSecIdC
    match secShrinkAux b.reverse rest with
    | some bk => some (w1 ++ "through".data ++ w2 ++ bk)
    | none => none
  else none

/-- Backtracking over the main `[\w\.-]+` run (reversed) with remainder
`rest`: greedily prefer the `through` continuation, then a bare
terminator, else shorten the run.  Returns group 1's characters. -/
def secBodyAux : List Char → List Char → Option (List Char)
  | [], _ => none
  | c :: rb, rest =>
    match secThroughAt rest with
    | some thr => some ((c :: rb).reverse ++ thr)
    | none =>
      if secTermHead rest then some ((c :: rb).reverse)
      else secBodyAux rb (c :: rest)

/-- Match the part of SECTION_PATTERN after the `§` signs. -/
def secMatchAfterSigns (l : List Char) : Option (List Char) :=
  let l1 := l.dropWhile isPySpace
  let b := l1.takeWhile isSecIdC
  let rest := l1.dropWhile isSecIdC
  secBodyAux b.reverse rest

/-- Try SECTION_PATTERN anchored at the head of `l` (`§` then an
optional greedy second `§`). -/
def secTryAt : List Char → Option (List Char)
  | [] => none
  | c :: cs =>
    if c == '§' then
      match cs with
      | c2 :: cs2 =>
        if c2 == '§' then
          match secMatchAfterSigns cs2 with
          | some g => some g
          | none => secMatchAfterSigns cs
        else secMatchAfterSigns cs
      | [] => secMatchAfterSigns []
    else none

/-- Leftmost search for SECTION_PATTERN. -/
def secSearchL : List Char → Option (List Char)
  | [] => none
  | c :: cs =>
    match secTryAt (c :: cs) with
    | some g => some g
    | none => secSearchL cs

/-- `re.search(SECTION_PATTERN, text)`, returning group 1. -/
def sectionSearch (text : String) : Option String :=
  (secSearchL text.data).map String.mk

/-! ### Title heading removal: `re.sub(r"^<kw>\s+\d+[A-Z]?\.\s*", "", s, flags=re.IGNORECASE)` -/

/-- Match `^<kw>\s+\d+[A-Z]?\.\s*` (case-insensitive; under IGNORECASE
the class `[A-Z]` also matches lowercase letters) and return the
remainder of the string after the match, or `none` when the pattern
does not match. -/
def headingSubAt (kw : List Char) (l : List Char) : Option (List Char) :=
  if ciStartsWithL kw l then
    let r := l.drop kw.length
    if (r.takeWhile isPySpace).isEmpty then none
    else
      let r1 := r.dropWhile isPySpace
      let ds := r1.takeWhile Char.isDigit
      if ds.isEmpty then none
      else
        match r1.drop ds.length with
        | '.' :: r2 => some (r2.dropWhile isPySpace)
        | c :: '.' :: r2 => if c.isAlpha then some (r2.dropWhile isPySpace) else none
        | _ => none
  else none

/-- Python `str.rstrip(".")`: drop every trailing period. -/
def rstripDotsL (l : List Char) : List Char :=
  (l.reverse.dropWhile (· == '.')).reverse

/-- Python `str.strip()`: trim whitespace on both ends. -/
def stripWsL (l : List Char) : List Char :=
  ((l.dropWhile isPySpace).reverse.dropWhile isPySpace).reverse

/-- `extract_chapter_title`: strip a `"Chapter N."` heading, then all
trailing periods, then surrounding whitespace. -/
def extract_chapter_title (full_title : String) : String :=
  let cleaned :=
    match headingSubAt "Chapter".data full_title.data with
    | some rest => rest
    | none => full_title.data
  String.mk (stripWsL (rstripDotsL cleaned))

/-- `extract_article_title`: strip an `"Article N."` heading, then all
trailing periods, then surrounding whitespace. -/
def extract_article_title (full_title : String) : String :=
  let cleaned :=
    match headingSubAt "Article".data full_title.data with
    | some rest => rest
    | none => full_title.data
  String.mk (stripWsL (rstripDotsL cleaned))

/-! ### CSS class constants and element classification -/

def CSS_article_title : String := "cs2E44D3A6"
def CSS_section_title : String := "cs8E357F70"
def CSS_section_text : List String := ["cs4817DA29", "cs10EB6B29"]

/-- `ParserState.is_article_number`: text like `"Article 1."`. -/
def is_article_number (text : String) : Bool :=
  startsWithL "Article ".data text.data && endsWithL ".".data text.data
    && (articleSearch text).isSome

/-- `ParserState.is_section_title`: element carries the section-title class. -/
def is_section_title (classes : List String) : Bool :=
  classes.contains CSS_section_title

/-- `ParserState.is_section_text`: element carries either body class. -/
def is_section_text (classes : List String) : Bool :=
  CSS_section_text.any (fun cls => classes.contains cls)

/-- `ParserState.is_article_title_part`: article-title class, text not
starting with `"Article "` nor with `"§"`. -/
def is_article_title_part (classes : List String) (text : String) : Bool :=
  classes.contains CSS_article_title
    && !(startsWithL "Article ".data text.data)
    && !(startsWithL "§".data text.data)

/-- `ParserState.is_standalone_article`: article-title class, text
starting with `"Article "` and not ending with a period. -/
def is_standalone_article (classes : List String) (text : String) : Bool :=
  classes.contains CSS_article_title
    && startsWithL "Article ".data text.data
    && !(endsWithL ".".data text.data)

/-! ### Data model -/

/-- `StatuteSection`: one statute section with its metadata. -/
structure StatuteSection where
  chapter : String
  article : String
  article_number : Option String
  section_number : Option String
  text : String
deriving DecidableEq, Repr

/-- `StatuteSection.add_text`: append a fragment, newline-separated. -/
def StatuteSection.add_text (s : StatuteSection) (new_text : String) : StatuteSection :=
  if s.text ≠ "" then { s with text := s.text ++ "\n" ++ new_text }
  else { s with text := new_text }

/-- `ParserState`: mutable context of the statute parser (modelled as a
pure value; transitions return the updated state). -/
structure ParserState where
  chapter_title : String
  current_article : String := ""
  current_article_number : Option String := none
  current_section : Option StatuteSection := none
  pending_article_number : Option String := none
  records : List StatuteSection := []
deriving DecidableEq, Repr

/-- Python truthiness of an `Optional[str]`: `None` and `""` are falsy. -/
def pyTruthy : Option String → Bool
  | none => false
  | some t => t != ""

/-- `ParserState.save_current_section`: append the current section to
`records` if it exists and has (truthy) text.  The current section is
not cleared. -/
def ParserState.save_current_section (s : ParserState) : ParserState :=
  match s.current_section with
  | some sec => if sec.text != "" then { s with records := s.records ++ [sec] } else s
  | none => s

/-- `ParserState.process_article_number`. -/
def ParserState.process_article_number (s : ParserState) (text : String) : ParserState :=
  { s with pending_article_number := some text,
           current_article_number := articleSearch text }

/-- `ParserState.process_article_title_part`. -/
def ParserState.process_article_title_part (s : ParserState) (text : String) : ParserState :=
  match s.pending_article_number with
  | some p =>
    if p != "" then
      { s with current_article :=
                 extract_article_title (String.mk (stripWsL (p ++ " " ++ text).data)),
               pending_article_number := none }
    else s
  | none => s

/-- `ParserState.process_standalone_article`. -/
def ParserState.process_standalone_article (s : ParserState) (text : String) : ParserState :=
  { s with current_article := extract_article_title text,
           current_article_number := articleSearch text,
           pending_article_number := none }

/-- `ParserState.start_new_section`: save the previous section, then
open a new one whose body starts with the section-title line. -/
def ParserState.start_new_section (s : ParserState) (text : String) : ParserState :=
  let s1 := s.save_current_section
  { s1 with current_section := some (
      { chapter := s1.chapter_title,
        article := s1.current_article,
        article_number := s1.current_article_number,
        section_number := sectionSearch text,
        text := text } : StatuteSection) }

/-- `ParserState.add_section_content`: append body text to the open
section; a no-op when no section is open. -/
def ParserState.add_section_content (s : ParserState) (text : String) : ParserState :=
  match s.current_section with
  | some sec => { s with current_section := some (sec.add_text text) }
  | none => s

/-! ### Chapter-parser driving loop (`parse_statute_html`) -/

/-- One selected HTML element: its class tokens and normalized text. -/
structure RawElement where
  classes : List String
  text : String
deriving DecidableEq, Repr

/-- The body of the state-machine loop of `parse_statute_html`: skip
empty text, then dispatch by the priority-ordered classification. -/
def processElement (s : ParserState) (e : RawElement) : ParserState :=
  if e.text = "" then s
  else if is_article_number e.text then s.process_article_number e.text
  else if pyTruthy s.pending_article_number && is_article_title_part e.classes e.text then
    s.process_article_title_part e.text
  else if is_section_title e.classes then s.start_new_section e.text
  else if is_section_text e.classes then s.add_section_content e.text
  else if is_standalone_article e.classes e.text then s.process_standalone_article e.text
  else s

/-- Fold the loop body over the element stream. -/
def processStream (s : ParserState) (es : List RawElement) : ParserState :=
  es.foldl processElement s

/-- `ParserState(chapter_title=...)` with the dataclass defaults. -/
def initState (chapter_title : String) : ParserState :=
  { chapter_title := chapter_title }

/-- The element-stream part of `parse_statute_html`: run the loop from a
fresh state, save the final section, return the records. -/
def runParser (chapter_title : String) (es : List RawElement) : List StatuteSection :=
  ((processStream (initState chapter_title) es).save_current_section).records

/-! ### Spec-side definitions for the title extractor (refinement claim)

These follow the specification's words, to be compared with the
source-modelled `extract_chapter_title` / `extract_article_title`. -/

/-- Spec-side: remove a leading case-insensitive
`"<keyword> <digits><optional single letter>."` heading plus optional
following whitespace (`none` when the heading pattern does not match).
Under the case-insensitive reading the optional letter matches either
case. -/
def claimHeadingDrop (kw : List Char) (l : List Char) : Option (List Char) :=
  if ciStartsWithL kw l then
    let r := l.drop kw.length
    if (r.takeWhile isPySpace).isEmpty then none
    else
      let r1 := r.dropWhile isPySpace
      let ds := r1.takeWhile Char.isDigit
      if ds.isEmpty then none
      else
        match r1.drop ds.length with
        | '.' :: r2 => some (r2.dropWhile isPySpace)
        | c :: '.' :: r2 => if c.isAlpha then some (r2.dropWhile isPySpace) else none
        | _ => none
  else none

/-- Spec-side: strip exactly one trailing period if present (the
behavior the spec claims for the title extractor). -/
def dropOneDotEnd (l : List Char) : List Char :=
  if l.getLast? = some '.' then l.dropLast else l

/-- Spec-side: strip every trailing period. -/
def dropAllDotsEnd (l : List Char) : List Char :=
  (l.reverse.dropWhile (· == '.')).reverse

/-- The title extractor as the spec claims it: remove the heading (or
leave the input unchanged when the pattern does not match), strip
exactly one trailing period, trim surrounding whitespace. -/
def titleExtractClaim (kw : String) (s : String) : String :=
  let l :=
    match claimHeadingDrop kw.data s.data with
    | some rest => rest
    | none => s.data
  String.mk (stripWsL (dropOneDotEnd l))

/-- The title extractor as amended: identical, except that all trailing
periods are stripped, as the code's `rstrip(".")` does. -/
def titleExtractAmended (kw : String) (s : String) : String :=
  let l :=
    match claimHeadingDrop kw.data s.data with
    | some rest => rest
    | none => s.data
  String.mk (stripWsL (dropAllDotsEnd l))

/-! ### Helper lemmas -/

theorem save_chapter_title (s : ParserState) :
    (s.save_current_section).chapter_title = s.chapter_title := by
  cases hc : s.current_section with
  | none => simp [ParserState.save_current_section, hc]
  | some sec =>
    by_cases ht : sec.text = "" <;> simp [ParserState.save_current_section, hc, ht]

theorem save_current_article (s : ParserState) :
    (s.save_current_section).current_article = s.current_article := by
  cases hc : s.current_section with
  | none => simp [ParserState.save_current_section, hc]
  | some sec =>
    by_cases ht : sec.text = "" <;> simp [ParserState.save_current_section, hc, ht]

theorem save_current_article_number (s : ParserState) :
    (s.save_current_section).current_article_number = s.current_article_number := by
  cases hc : s.current_section with
  | none => simp [ParserState.save_current_section, hc]
  | some sec =>
    by_cases ht : sec.text = "" <;> simp [ParserState.save_current_section, hc, ht]

theorem save_keeps_current_section (s : ParserState) :
    (s.save_current_section).current_section = s.current_section := by
  cases hc : s.current_section with
  | none => simp [ParserState.save_current_section, hc]
  | some sec =>
    by_cases ht : sec.text = "" <;> simp [ParserState.save_current_section, hc, ht]

theorem save_records_cases (s : ParserState) :
    (s.save_current_section).records = s.records
    ∨ ∃ sec, (s.save_current_section).records = s.records ++ [sec] ∧ sec.text ≠ "" := by
  cases hc : s.current_section with
  | none => exact Or.inl (by simp [ParserState.save_current_section, hc])
  | some sec =>
    by_cases ht : sec.text = ""
    · exact Or.inl (by simp [ParserState.save_current_section, hc, ht])
    · exact Or.inr ⟨sec, by simp [ParserState.save_current_section, hc, ht], ht⟩

theorem save_appends (s : ParserState) (sec : StatuteSection)
    (h : s.current_section = some sec) (ht : sec.text ≠ "") :
    (s.save_current_section).records = s.records ++ [sec] := by
  simp [ParserState.save_current_section, h, ht]

theorem start_new_section_cursec (s : ParserState) (t : String) :
    (s.start_new_section t).current_section
      = some ⟨s.chapter_title, s.current_article, s.current_article_number,
              sectionSearch t, t⟩ := by
  unfold ParserState.start_new_section
  simp [save_chapter_title, save_current_article, save_current_article_number]

theorem start_new_section_records (s : ParserState) (t : String) :
    (s.start_new_section t).records = (s.save_current_section).records := rfl

theorem start_new_section_chapter (s : ParserState) (t : String) :
    (s.start_new_section t).chapter_title = s.chapter_title := by
  have : (s.start_new_section t).chapter_title = (s.save_current_section).chapter_title := rfl
  rw [this, save_chapter_title]

theorem title_part_cursec (s : ParserState) (t : String) :
    (s.process_article_title_part t).current_section = s.current_section := by
  cases hp : s.pending_article_number with
  | none => simp [ParserState.process_article_title_part, hp]
  | some p =>
    by_cases hpe : p = "" <;> simp [ParserState.process_article_title_part, hp, hpe]

theorem title_part_records (s : ParserState) (t : String) :
    (s.process_article_title_part t).records = s.records := by
  cases hp : s.pending_article_number with
  | none => simp [ParserState.process_article_title_part, hp]
  | some p =>
    by_cases hpe : p = "" <;> simp [ParserState.process_article_title_part, hp, hpe]

theorem title_part_chapter (s : ParserState) (t : String) :
    (s.process_article_title_part t).chapter_title = s.chapter_title := by
  cases hp : s.pending_article_number with
  | none => simp [ParserState.process_article_title_part, hp]
  | some p =>
    by_cases hpe : p = "" <;> simp [ParserState.process_article_title_part, hp, hpe]

theorem add_content_records (s : ParserState) (t : String) :
    (s.add_section_content t).records = s.records := by
  cases hc : s.current_section with
  | none => simp [ParserState.add_section_content, hc]
  | some sec => simp [ParserState.add_section_content, hc]

theorem add_content_chapter (s : ParserState) (t : String) :
    (s.add_section_content t).chapter_title = s.chapter_title := by
  cases hc : s.current_section with
  | none => simp [ParserState.add_section_content, hc]
  | some sec => simp [ParserState.add_section_content, hc]

theorem processElement_chapter (s : ParserState) (e : RawElement) :
    (processElement s e).chapter_title = s.chapter_title := by
  unfold processElement
  split_ifs
  · rfl
  · rfl
  · exact title_part_chapter s e.text
  · exact start_new_section_chapter s e.text
  · exact add_content_chapter s e.text
  · rfl
  · rfl

theorem processStream_cons (s : ParserState) (e : RawElement) (es : List RawElement) :
    processStream s (e :: es) = processStream (processElement s e) es := rfl

theorem processStream_chapter (s : ParserState) (es : List RawElement) :
    (processStream s es).chapter_title = s.chapter_title := by
  induction es generalizing s with
  | nil => rfl
  | cons e es ih => rw [processStream_cons, ih, processElement_chapter]

theorem processElement_records_cases (s : ParserState) (e : RawElement) :
    (processElement s e).records = s.records
    ∨ ∃ sec, (processElement s e).records = s.records ++ [sec] ∧ sec.text ≠ "" := by
  unfold processElement
  split_ifs
  · exact Or.inl rfl
  · exact Or.inl rfl
  · exact Or.inl (title_part_records s e.text)
  · rw [start_new_section_records]
    exact save_records_cases s
  · exact Or.inl (add_content_records s e.text)
  · exact Or.inl rfl
  · exact Or.inl rfl

theorem processStream_records_mono (s : ParserState) (es : List RawElement) :
    ∃ tl, (processStream s es).records = s.records ++ tl ∧ ∀ r ∈ tl, r.text ≠ "" := by
  induction es generalizing s with
  | nil => exact ⟨[], by simp [processStream]⟩
  | cons e es ih =>
    obtain ⟨tl1, h1, h1'⟩ := ih (processElement s e)
    rw [processStream_cons]
    rcases processElement_records_cases s e with h0 | ⟨sec, h0, hsec⟩
    · exact ⟨tl1, by rw [h1, h0], h1'⟩
    · refine ⟨sec :: tl1, by rw [h1, h0]; simp, ?_⟩
      intro r hr
      rcases List.mem_cons.mp hr with h | h
      · exact h ▸ hsec
      · exact h1' r h

theorem processStream_append_eq (s : ParserState) (es1 es2 : List RawElement) :
    processStream s (es1 ++ es2) = processStream (processStream s es1) es2 :=
  List.foldl_append processElement s es1 es2

theorem processElement_section_title (s : ParserState) (e : RawElement)
    (h1 : is_article_number e.text = false)
    (h2 : is_article_title_part e.classes e.text = false)
    (h3 : is_section_title e.classes = true)
    (ht : e.text ≠ "") :
    processElement s e = s.start_new_section e.text := by
  simp [processElement, ht, h1, h2, h3]

/-- Only the section-title and section-text dispatch branches touch
`current_section`; an element that is an article-number line, or that
carries neither the section-title class nor a section-text class,
leaves it unchanged. -/
theorem processElement_cursec_frame (s : ParserState) (e : RawElement)
    (h : is_article_number e.text = true
         ∨ (is_section_title e.classes = false ∧ is_section_text e.classes = false)) :
    (processElement s e).current_section = s.current_section := by
  unfold processElement
  split_ifs with g1 g2 g3 g4 g5 g6
  · rfl
  · rfl
  · exact title_part_cursec s e.text
  · rcases h with h | ⟨ha, _⟩
    · exact absurd h g2
    · rw [g4] at ha; exact absurd ha (by simp)
  · rcases h with h | ⟨_, hb⟩
    · exact absurd h g2
    · rw [g5] at hb; exact absurd hb (by simp)
  · rfl
  · rfl

theorem processStream_cursec_frame (s : ParserState) (es : List RawElement)
    (h : ∀ e ∈ es, is_article_number e.text = true
         ∨ (is_section_title e.classes = false ∧ is_section_text e.classes = false)) :
    (processStream s es).current_section = s.current_section := by
  induction es generalizing s with
  | nil => rfl
  | cons e es ih =>
    rw [processStream_cons, ih (processElement s e) (fun x hx => h x (by simp [hx])),
        processElement_cursec_frame s e (h e (by simp))]

theorem secSearchL_none (l : List Char) (h : ∀ c ∈ l, c ≠ '§') :
    secSearchL l = none := by
  induction l with
  | nil => rfl
  | cons c cs ih =>
    have hc : (c == '§') = false := by
      simpa using h c (by simp)
    have h1 : secTryAt (c :: cs) = none := by
      simp [secTryAt, hc]
    rw [show secSearchL (c :: cs)
          = (match secTryAt (c :: cs) with
             | some g => some g
             | none => secSearchL cs) from rfl, h1]
    exact ih (fun x hx => h x (by simp [hx]))

theorem sectionSearch_none (t : String) (h : ∀ c ∈ t.data, c ≠ '§') :
    sectionSearch t = none := by
  unfold sectionSearch
  rw [secSearchL_none t.data h]
  rfl

/-- Elements the driving loop treats as article context (article-number
line, article-title part, or standalone article), never as a section
title or section body. -/
def articleLikeElem (e : RawElement) : Prop :=
  is_article_number e.text = true
  ∨ (is_section_title e.classes = false ∧ is_section_text e.classes = false
     ∧ (is_article_title_part e.classes e.text = true
        ∨ is_standalone_article e.classes e.text = true))

instance (e : RawElement) : Decidable (articleLikeElem e) := by
  unfold articleLikeElem
  infer_instance

/-! ### Claim theorems -/

/-- C1: for the element stream ArticleNumberLine "Article 1.",
ArticleTitlePart "General Provisions", SectionTitle "§ 1-1. Purpose.",
SectionText "This chapter shall be liberally construed.", SectionTitle
"§ 1-2. Definitions.", SectionText "As used herein...", processed by a
fresh parser state with chapter title "Civil Procedure" followed by one
final finalize, the parser emits exactly the two claimed records in
order. -/
theorem C1_end_to_end :
    runParser "Civil Procedure"
      [⟨["cs2E44D3A6"], "Article 1."⟩,
       ⟨["cs2E44D3A6"], "General Provisions"⟩,
       ⟨["cs8E357F70"], "§ 1-1. Purpose."⟩,
       ⟨["cs4817DA29"], "This chapter shall be liberally construed."⟩,
       ⟨["cs8E357F70"], "§ 1-2. Definitions."⟩,
       ⟨["cs4817DA29"], "As used herein..."⟩]
    = [⟨"Civil Procedure", "General Provisions", some "1", some "1-1",
        "§ 1-1. Purpose.\nThis chapter shall be liberally construed."⟩,
       ⟨"Civil Procedure", "General Provisions", some "1", some "1-2",
        "§ 1-2. Definitions.\nAs used herein..."⟩] := by
  decide

/-- C2 counterexample: feeding the single fused element
"Article 5 Remedies" leaves `current_article = "Article 5 Remedies"`
(the heading regex requires a period after the number, so nothing is
stripped), while the split form yields "Remedies"; the claimed equality
fails. -/
theorem C2_counterexample :
    (processStream (initState "C")
        [⟨["cs2E44D3A6"], "Article 5."⟩, ⟨["cs2E44D3A6"], "Remedies"⟩]).current_article
      = "Remedies"
    ∧ (processStream (initState "C")
        [⟨["cs2E44D3A6"], "Article 5 Remedies"⟩]).current_article
      = "Article 5 Remedies"
    ∧ (processStream (initState "C")
        [⟨["cs2E44D3A6"], "Article 5."⟩, ⟨["cs2E44D3A6"], "Remedies"⟩]).current_article
      ≠ (processStream (initState "C")
          [⟨["cs2E44D3A6"], "Article 5 Remedies"⟩]).current_article := by
  decide

/-- C2 (amended): the split form "Article 5." + "Remedies" and the
fused standalone element "Article 5. Remedies" (period after the
number, as in the source's own docstring example) leave identical
`current_article` and `current_article_number`. -/
theorem C2_split_vs_fused (ct : String) :
    (processStream (initState ct)
        [⟨["cs2E44D3A6"], "Article 5."⟩, ⟨["cs2E44D3A6"], "Remedies"⟩]).current_article
      = (processStream (initState ct)
          [⟨["cs2E44D3A6"], "Article 5. Remedies"⟩]).current_article
    ∧ (processStream (initState ct)
        [⟨["cs2E44D3A6"], "Article 5."⟩, ⟨["cs2E44D3A6"], "Remedies"⟩]).current_article_number
      = (processStream (initState ct)
          [⟨["cs2E44D3A6"], "Article 5. Remedies"⟩]).current_article_number :=
  ⟨rfl, rfl⟩

/-- C3 counterexample: a stream consisting of a single section-title
element followed by end-of-stream yields one record, not zero — the
section's body is initialized to the title line itself, which is
non-empty, so finalization retains it. -/
theorem C3_counterexample :
    runParser "C" [⟨["cs8E357F70"], "§ 1-1. Purpose."⟩]
      = [⟨"C", "", none, some "1-1", "§ 1-1. Purpose."⟩] := by
  decide

/-- C3 (amended): when a section-title element with non-empty text is
the last element fed to the parser, end-of-stream finalization appends
a record for that section whose text is exactly the title line; and in
general every retained record has non-empty accumulated text. -/
theorem C3_trailing_section_title :
    (∀ (ct : String) (es : List RawElement) (e : RawElement),
        is_article_number e.text = false →
        is_article_title_part e.classes e.text = false →
        is_section_title e.classes = true →
        e.text ≠ "" →
        ∃ mid sec, runParser ct (es ++ [e]) = mid ++ [sec]
          ∧ sec.text = e.text ∧ sec.chapter = ct
          ∧ sec.section_number = sectionSearch e.text)
    ∧ (∀ (ct : String) (es : List RawElement) (r : StatuteSection),
        r ∈ runParser ct es → r.text ≠ "") := by
  constructor
  · intro ct es e h1 h2 h3 ht
    unfold runParser
    rw [processStream_append_eq, show processStream (processStream (initState ct) es) [e]
          = processElement (processStream (initState ct) es) e from rfl,
        processElement_section_title _ e h1 h2 h3 ht]
    set s1 := processStream (initState ct) es with hs1
    refine ⟨(s1.start_new_section e.text).records,
            ⟨s1.chapter_title, s1.current_article, s1.current_article_number,
             sectionSearch e.text, e.text⟩, ?_, rfl, ?_, rfl⟩
    · exact save_appends _ _ (start_new_section_cursec s1 e.text) ht
    · rw [hs1, processStream_chapter]
      rfl
  · intro ct es r hr
    unfold runParser at hr
    obtain ⟨tl, hmono, htl⟩ := processStream_records_mono (initState ct) es
    have h0 : (initState ct).records = ([] : List StatuteSection) := rfl
    rw [h0, List.nil_append] at hmono
    rcases save_records_cases (processStream (initState ct) es) with hs | ⟨sec, hs, hsec⟩
    · rw [hs, hmono] at hr
      exact htl r hr
    · rw [hs, hmono, List.mem_append] at hr
      rcases hr with hr | hr
      · exact htl r hr
      · simp only [List.mem_singleton] at hr
        exact hr ▸ hsec

/-- C3 witness. -/
theorem C3_trailing_section_title_witness :
    ∃ mid sec, runParser "C" ([] ++ [(⟨["cs8E357F70"], "§ 9."⟩ : RawElement)]) = mid ++ [sec]
      ∧ sec.text = "§ 9." ∧ sec.chapter = "C"
      ∧ sec.section_number = sectionSearch "§ 9." :=
  C3_trailing_section_title.1 "C" [] ⟨["cs8E357F70"], "§ 9."⟩
    (by decide) (by decide) (by decide) (by decide)

/-- C4 counterexample: the code's `rstrip(".")` removes every trailing
period, not exactly one, and therefore also changes prefix-less inputs
beyond whitespace trimming: on "Hello.." the code returns "Hello",
whereas the claimed extractor returns "Hello." and the claimed
no-match behavior would return "Hello..". -/
theorem C4_counterexample :
    extract_chapter_title "Hello.." = "Hello"
    ∧ titleExtractClaim "Chapter" "Hello.." = "Hello."
    ∧ extract_chapter_title "Hello.." ≠ titleExtractClaim "Chapter" "Hello.."
    ∧ extract_chapter_title "Hello.." ≠ String.mk (stripWsL "Hello..".data) := by
  decide

/-- C4 (amended): the title extractor removes a leading case-insensitive
"<keyword> <digits><optional single letter>." prefix plus optional
following whitespace, then strips ALL trailing periods, then trims
surrounding whitespace; when the prefix pattern does not match, the
input is returned with only trailing periods stripped and whitespace
trimmed. -/
theorem C4_title_extractor (s : String) :
    extract_chapter_title s = titleExtractAmended "Chapter" s
    ∧ extract_article_title s = titleExtractAmended "Article" s :=
  ⟨rfl, rfl⟩

/-- C5: processing the section title "§ 1-1. Purpose of Chapter:" opens
a section with `section_number = some "1-1"`; and for every title text
containing no '§' character, a section is still opened, with
`section_number = none` and body equal to that text. -/
theorem C5_section_number (s : ParserState) (t : String)
    (hnosig : ∀ c ∈ t.data, c ≠ '§') :
    (s.start_new_section "§ 1-1. Purpose of Chapter:").current_section
      = some ⟨s.chapter_title, s.current_article, s.current_article_number,
              some "1-1", "§ 1-1. Purpose of Chapter:"⟩
    ∧ (s.start_new_section t).current_section
      = some ⟨s.chapter_title, s.current_article, s.current_article_number,
              none, t⟩ := by
  constructor
  · rw [start_new_section_cursec]
    rfl
  · rw [start_new_section_cursec, sectionSearch_none t hnosig]

/-- C5 witness. -/
theorem C5_section_number_witness :
    ((initState "C").start_new_section "§ 1-1. Purpose of Chapter:").current_section
      = some ⟨"C", "", none, some "1-1", "§ 1-1. Purpose of Chapter:"⟩
    ∧ ((initState "C").start_new_section "no marker here").current_section
      = some ⟨"C", "", none, none, "no marker here"⟩ :=
  C5_section_number (initState "C") "no marker here" (by decide)

/-- C6: `records` is append-only and order-preserving: every transition
of the driving loop only appends to `records`, processing more elements
only extends the records of a prefix of the stream, and the final
finalize only appends — so sections appear in `records` in stream
order. -/
theorem C6_append_only :
    (∀ (s : ParserState) (e : RawElement),
        ∃ tl, (processElement s e).records = s.records ++ tl)
    ∧ (∀ (ct : String) (es1 es2 : List RawElement),
        ∃ tl, (processStream (initState ct) (es1 ++ es2)).records
                = (processStream (initState ct) es1).records ++ tl)
    ∧ (∀ (ct : String) (es : List RawElement),
        ∃ tl, runParser ct es = (processStream (initState ct) es).records ++ tl) := by
  refine ⟨?_, ?_, ?_⟩
  · intro s e
    rcases processElement_records_cases s e with h | ⟨sec, h, _⟩
    · exact ⟨[], by simp [h]⟩
    · exact ⟨[sec], h⟩
  · intro ct es1 es2
    rw [processStream_append_eq]
    obtain ⟨tl, h, _⟩ := processStream_records_mono (processStream (initState ct) es1) es2
    exact ⟨tl, h⟩
  · intro ct es
    unfold runParser
    rcases save_records_cases (processStream (initState ct) es) with h | ⟨sec, h, _⟩
    · exact ⟨[], by simp [h]⟩
    · exact ⟨[sec], h⟩

/-- C7: a record emitted for a section opened when the article context
was `s.current_article`/`s.current_article_number` keeps exactly those
values, even when any number of article-classified elements (article
number lines, title parts, standalone articles) are processed between
the open and finalization. -/
theorem C7_article_frozen_at_open (s : ParserState) (t : String) (es : List RawElement)
    (ht : t ≠ "") (hes : ∀ e ∈ es, articleLikeElem e) :
    ∃ sec, ((processStream (s.start_new_section t) es).save_current_section).records
             = (processStream (s.start_new_section t) es).records ++ [sec]
      ∧ sec.article = s.current_article
      ∧ sec.article_number = s.current_article_number
      ∧ sec.text = t := by
  have hframe : (processStream (s.start_new_section t) es).current_section
      = (s.start_new_section t).current_section := by
    refine processStream_cursec_frame _ es (fun e he => ?_)
    rcases hes e he with h | ⟨h1, h2, _⟩
    · exact Or.inl h
    · exact Or.inr ⟨h1, h2⟩
  refine ⟨⟨s.chapter_title, s.current_article, s.current_article_number,
           sectionSearch t, t⟩, ?_, rfl, rfl, rfl⟩
  exact save_appends _ _ (by rw [hframe, start_new_section_cursec]) ht

/-- C7 witness. -/
theorem C7_article_frozen_at_open_witness :
    ∃ sec, ((processStream ((initState "C").start_new_section "§ 1. X.")
               [⟨["cs2E44D3A6"], "Article 2."⟩]).save_current_section).records
             = (processStream ((initState "C").start_new_section "§ 1. X.")
                 [⟨["cs2E44D3A6"], "Article 2."⟩]).records ++ [sec]
      ∧ sec.article = ""
      ∧ sec.article_number = none
      ∧ sec.text = "§ 1. X." :=
  C7_article_frozen_at_open (initState "C") "§ 1. X."
    [⟨["cs2E44D3A6"], "Article 2."⟩] (by decide) (by decide)

/-- C8: when no section is open, `add_section_content` is a no-op: it
returns the state unchanged (records included). -/
theorem C8_text_without_section_noop (s : ParserState) (t : String)
    (h : s.current_section = none) :
    s.add_section_content t = s := by
  simp [ParserState.add_section_content, h]

/-- C8 witness. -/
theorem C8_text_without_section_noop_witness :
    (initState "C").add_section_content "stray body text" = initState "C" :=
  C8_text_without_section_noop (initState "C") "stray body text" rfl

/-- C9: an ArticleNumberLine followed directly by a SectionTitle (no
intervening title part or standalone article) produces a record pairing
the new line's article number "2" with the previous article's title
"General Provisions". -/
theorem C9_stale_article_title :
    runParser "C"
      [⟨["cs2E44D3A6"], "Article 1."⟩,
       ⟨["cs2E44D3A6"], "General Provisions"⟩,
       ⟨["cs8E357F70"], "§ 1-1. A."⟩,
       ⟨["cs4817DA29"], "Body1"⟩,
       ⟨["cs2E44D3A6"], "Article 2."⟩,
       ⟨["cs8E357F70"], "§ 2-1. B."⟩]
    = [⟨"C", "General Provisions", some "1", some "1-1", "§ 1-1. A.\nBody1"⟩,
       ⟨"C", "General Provisions", some "2", some "2-1", "§ 2-1. B."⟩] := by
  decide

/-- C10: `process_article_title_part` never changes
`current_article_number`, `current_section`, `records` or
`chapter_title`; and when `pending_article_number` is not set it
changes nothing at all. -/
theorem C10_title_part_frame (s : ParserState) (t : String) :
    ((s.process_article_title_part t).current_article_number = s.current_article_number
     ∧ (s.process_article_title_part t).current_section = s.current_section
     ∧ (s.process_article_title_part t).records = s.records
     ∧ (s.process_article_title_part t).chapter_title = s.chapter_title)
    ∧ (s.pending_article_number = none → s.process_article_title_part t = s) := by
  constructor
  · refine ⟨?_, title_part_cursec s t, title_part_records s t, title_part_chapter s t⟩
    cases hp : s.pending_article_number with
    | none => simp [ParserState.process_article_title_part, hp]
    | some p =>
      by_cases hpe : p = "" <;> simp [ParserState.process_article_title_part, hp, hpe]
  · intro hp
    simp [ParserState.process_article_title_part, hp]

/-- C10 witness. -/
theorem C10_title_part_frame_witness :
    (initState "C").process_article_title_part "Some Title" = initState "C" :=
  (C10_title_part_frame (initState "C") "Some Title").2 rfl

end NCStatutes
